import Mathlib

/-!
# Verification of the WebGL neural-network animation system

Shallow embedding of `src/webgl-animation-system.js` (class `WebGLNeuralNetwork`)
and proofs about it.

Modelling conventions:
* JavaScript numbers are idealised: configuration values, container dimensions
  and timestamps are rationals (`ℚ`); node coordinates, velocities and sizes are
  reals (`ℝ`).  `Math.sqrt` is `Real.sqrt`, `Math.sin` is `Real.sin`, `Math.PI`
  is `Real.pi`, `Math.floor` is `Int.floor`, `Math.min`/`Math.max` are
  `min`/`max`.
* `Math.random()` results are supplied explicitly as a stream `ℕ → ℝ`; each
  call of the source consumes the next stream element.
* Browser/environment inputs (device signals, GL availability, shader compile
  results, benchmark wall-clock time, container size) are explicit parameters.
* A JavaScript function object created by `.bind(this)` or by evaluating an
  arrow-function literal is a fresh object, never equal to any previously
  created function; we model function identity with a numeric nonce.
* Statements that can raise a JavaScript exception (property access on `null`)
  are modelled with an explicit error value.
-/

namespace Websiting

/-- The kinds of JavaScript runtime errors the embedded code can raise. -/
inductive JsError
  | typeError
  deriving DecidableEq

/-- Recognised configuration options with the constructor's defaults
(source lines 20-34).  Color options are omitted: no claim mentions them;
`theme` is collapsed to the boolean `themeDark`. -/
structure Options where
  nodeCount : ℚ
  connectionDistance : ℚ
  nodeSize : ℚ
  speed : ℚ
  interactive : Bool
  pulseEffect : Bool
  adaptivePerformance : Bool
  themeDark : Bool
  dataFlowEffect : Bool
  deriving DecidableEq

/-- The default options object (source lines 20-34). -/
def defaultOptions : Options :=
  { nodeCount := 150
    connectionDistance := 120
    nodeSize := 5/2
    speed := 1/2
    interactive := true
    pulseEffect := true
    adaptivePerformance := true
    themeDark := false
    dataFlowEffect := true }

/-- A partial options object passed to the constructor or to `updateOptions`;
`none` fields are absent keys. -/
structure OptionsPatch where
  nodeCount : Option ℚ := none
  connectionDistance : Option ℚ := none
  nodeSize : Option ℚ := none
  speed : Option ℚ := none
  interactive : Option Bool := none
  pulseEffect : Option Bool := none
  adaptivePerformance : Option Bool := none
  themeDark : Option Bool := none
  dataFlowEffect : Option Bool := none

/-- JavaScript object spread `{...o, ...p}`: keys present in `p` win. -/
def mergeOptions (o : Options) (p : OptionsPatch) : Options :=
  { nodeCount := p.nodeCount.getD o.nodeCount
    connectionDistance := p.connectionDistance.getD o.connectionDistance
    nodeSize := p.nodeSize.getD o.nodeSize
    speed := p.speed.getD o.speed
    interactive := p.interactive.getD o.interactive
    pulseEffect := p.pulseEffect.getD o.pulseEffect
    adaptivePerformance := p.adaptivePerformance.getD o.adaptivePerformance
    themeDark := p.themeDark.getD o.themeDark
    dataFlowEffect := p.dataFlowEffect.getD o.dataFlowEffect }

/-- The performance level field (source line 45): `'high' | 'medium' | 'low'`. -/
inductive PerfLevel
  | low
  | medium
  | high
  deriving DecidableEq

/-- Device signals read by `checkPerformance` (source lines 358-369):
`navigator.hardwareConcurrency` (absent when `undefined`), the two
user-agent regex matches, and the two `matchMedia` width queries. -/
structure Device where
  hardwareConcurrency : Option ℕ
  uaMobile : Bool
  uaTablet : Bool
  matchMediaAvailable : Bool
  maxWidth768 : Bool
  maxWidth1024 : Bool
  deriving DecidableEq

/-- Source `isLowEndDevice` (lines lines 360-363).  The JavaScript guard
`navigator.hardwareConcurrency && navigator.hardwareConcurrency <= 4`
is falsy when the field is absent or `0`. -/
def isLowEndDevice (d : Device) : Bool :=
  (match d.hardwareConcurrency with
    | some n => decide (0 < n) && decide (n ≤ 4)
    | none => false)
  || d.uaMobile
  || (d.matchMediaAvailable && d.maxWidth768)

/-- Source `isMidRangeDevice` (lines 366-369). -/
def isMidRangeDevice (d : Device) : Bool :=
  (match d.hardwareConcurrency with
    | some n => decide (0 < n) && decide (n ≤ 6)
    | none => false)
  || d.uaTablet
  || (d.matchMediaAvailable && d.maxWidth1024)

/-- The heuristic part of `checkPerformance` (source lines 371-382): mutates
the options and the performance level based on the device class.  Returns the
new `(options, performanceLevel)` pair. -/
def checkPerformanceHeur (d : Device) (o : Options) (lvl : PerfLevel) :
    Options × PerfLevel :=
  if isLowEndDevice d then
    ({ o with
        nodeCount := ((⌊o.nodeCount * 0.3⌋ : ℤ) : ℚ)
        connectionDistance := ((⌊o.connectionDistance * 0.7⌋ : ℤ) : ℚ)
        speed := o.speed * 0.7
        dataFlowEffect := false }, .low)
  else if isMidRangeDevice d then
    ({ o with
        nodeCount := ((⌊o.nodeCount * 0.6⌋ : ℤ) : ℚ)
        connectionDistance := ((⌊o.connectionDistance * 0.8⌋ : ℤ) : ℚ) }, .medium)
  else (o, lvl)

/-- The settings adjustment performed by `runWebGLBenchmark` (source lines
450-460) after measuring `benchmarkTime` milliseconds: one further downgrade
when the benchmark is slow. -/
def benchmarkAdjust (benchmarkTime : ℚ) (o : Options) (lvl : PerfLevel) :
    Options × PerfLevel :=
  if benchmarkTime > 10 then
    match lvl with
    | .high => ({ o with nodeCount := ((⌊o.nodeCount * 0.7⌋ : ℤ) : ℚ) }, .medium)
    | .medium =>
        ({ o with
            nodeCount := ((⌊o.nodeCount * 0.5⌋ : ℤ) : ℚ)
            dataFlowEffect := false }, .low)
    | .low => (o, lvl)
  else (o, lvl)

/-- Source `adjustNodeCountForPerformance` ( lines 466-485): scale the
configured count by the viewport-area ratio against a 1920×1080 reference,
then cap by the performance level. -/
def adjustNodeCountForPerformance (o : Options) (lvl : PerfLevel) (w h : ℚ) : ℤ :=
  let nodeCount := o.nodeCount
  let screenArea := w * h
  let referenceArea : ℚ := 1920 * 1080
  let sizeScale := min 1 (screenArea / referenceArea)
  let scaled : ℤ := ⌊nodeCount * sizeScale⌋
  match lvl with
  | .low => min scaled 50
  | .medium => min scaled 100
  | .high => scaled

/-- Modelled from the spec sentence for C7 ("configured count scaled by
(tier cap) × (viewport-area ratio against a 1080p reference)"): the effective
count is the configured count scaled by the viewport-area ratio, then held
under the quality-tier cap. -/
def specEffectiveNodeCount (configured : ℚ) (lvl : PerfLevel) (w h : ℚ) : ℤ :=
  let areaScaled : ℤ := ⌊configured * min 1 ((w * h) / (1920 * 1080))⌋
  match lvl with
  | .low => min areaScaled 50
  | .medium => min areaScaled 100
  | .high => areaScaled

/-- The effective node count produced by the startup flow under adaptive
performance: heuristics, then the one-time benchmark, then the per-seeding
adjustment (constructor lines 51-56). -/
def startupEffectiveNodeCount (o : Options) (d : Device) (benchmarkTime : ℚ)
    (w h : ℚ) : ℤ :=
  let p1 := checkPerformanceHeur d o .high
  let p2 := benchmarkAdjust benchmarkTime p1.1 p1.2
  adjustNodeCountForPerformance p2.1 p2.2 w h

/-- One animated particle as seeded by `createNodes` (source lines 253-261). -/
structure Node where
  x : ℝ
  y : ℝ
  vx : ℝ
  vy : ℝ
  size : ℝ
  originalSize : ℝ
  pulseOffset : ℝ

/-- The pointer state `this.mouse` (source line 42). -/
structure Mouse where
  x : ℝ
  y : ℝ
  active : Bool

/-- The per-node body of `updateNodes` (source lines 491-541): integrate,
reflect at the boundary, pulse the size, then apply the pointer interaction
with a velocity clamp.  Parameters: options, pointer state, container width
and height, current time. -/
noncomputable def updateNode (o : Options) (m : Mouse) (w h : ℚ) (time : ℚ)
    (node : Node) : Node :=
  let node := { node with x := node.x + node.vx, y := node.y + node.vy }
  let node :=
    if node.x < 0 ∨ node.x > (w : ℝ) then
      { node with vx := -node.vx, x := max 0 (min (w : ℝ) node.x) }
    else node
  let node :=
    if node.y < 0 ∨ node.y > (h : ℝ) then
      { node with vy := -node.vy, y := max 0 (min (h : ℝ) node.y) }
    else node
  let node :=
    if o.pulseEffect then
      let pulseRate : ℝ := 0.002
      let pulseAmount : ℝ := 0.2
      { node with
          size := node.originalSize *
            (1 + pulseAmount * Real.sin ((time : ℝ) * pulseRate + node.pulseOffset)) }
    else node
  if m.active then
    let dx := m.x - node.x
    let dy := m.y - node.y
    let distance := Real.sqrt (dx * dx + dy * dy)
    let maxDistance := (o.connectionDistance : ℝ) * 1.5
    if distance < maxDistance then
      let influence := (1 - distance / maxDistance) * 0.05
      let repelFactor : ℝ := -1
      let node :=
        { node with
            vx := node.vx + dx * influence * repelFactor
            vy := node.vy + dy * influence * repelFactor }
      let maxVelocity := (o.speed : ℝ) * 2
      let velocityMagnitude := Real.sqrt (node.vx * node.vx + node.vy * node.vy)
      if velocityMagnitude > maxVelocity then
        let scale := maxVelocity / velocityMagnitude
        { node with vx := node.vx * scale, vy := node.vy * scale }
      else node
    else node
  else node

/-- Step 1 of the C3 claim: position is advanced by velocity. -/
noncomputable def specIntegrate (node : Node) : Node :=
  { node with x := node.x + node.vx, y := node.y + node.vy }

/-- Step 2 of the C3 claim: on each axis, if the position exits
`[0, width]` or `[0, height]`, that axis's velocity component is inverted and
the position is clamped back into range. -/
noncomputable def specReflect (w h : ℚ) (node : Node) : Node :=
  let node :=
    if node.x < 0 ∨ node.x > (w : ℝ) then
      { node with vx := -node.vx, x := max 0 (min (w : ℝ) node.x) }
    else node
  if node.y < 0 ∨ node.y > (h : ℝ) then
    { node with vy := -node.vy, y := max 0 (min (h : ℝ) node.y) }
  else node

/-- The pulsing amplitude named by the C3 claim. -/
def specPulseAmplitude : ℝ := 0.2

/-- The pulsing rate named by the C3 claim. -/
def specPulseRate : ℝ := 0.002

/-- Step 3 of the C3 claim: if pulsing is enabled, the size is recomputed as
`baseSize × (1 + amplitude × sin(time × rate + phase))`. -/
noncomputable def specPulse (o : Options) (time : ℚ) (node : Node) : Node :=
  if o.pulseEffect then
    { node with
        size := node.originalSize *
          (1 + specPulseAmplitude * Real.sin ((time : ℝ) * specPulseRate + node.pulseOffset)) }
  else node

/-- The proportionality constant of the pointer velocity adjustment. -/
def specPointerStrength : ℝ := 0.05

/-- The configurable sign of the pointer interaction (negative: repel). -/
def specRepelSign : ℝ := -1

/-- The configured multiple of the base speed used as the velocity cap. -/
def specMaxVelocityFactor : ℝ := 2

/-- Step 4 of the C3 claim: if the pointer is active and within
`connectionDistance × 1.5` of the node, add to the velocity a multiple of the
node→pointer vector whose factor is proportional to
`1 − distance/maxDistance`, then clamp the velocity magnitude to a configured
multiple of the base speed. -/
noncomputable def specPointerAdjust (o : Options) (m : Mouse) (node : Node) : Node :=
  if m.active then
    let toPointer : ℝ × ℝ := (m.x - node.x, m.y - node.y)
    let distance := Real.sqrt (toPointer.1 * toPointer.1 + toPointer.2 * toPointer.2)
    let maxDistance := (o.connectionDistance : ℝ) * 1.5
    if distance < maxDistance then
      let factor := (1 - distance / maxDistance) * specPointerStrength * specRepelSign
      let v : ℝ × ℝ := (node.vx + factor * toPointer.1, node.vy + factor * toPointer.2)
      let maxVelocity := (o.speed : ℝ) * specMaxVelocityFactor
      let magnitude := Real.sqrt (v.1 * v.1 + v.2 * v.2)
      if magnitude > maxVelocity then
        { node with vx := v.1 * (maxVelocity / magnitude), vy := v.2 * (maxVelocity / magnitude) }
      else { node with vx := v.1, vy := v.2 }
    else node
  else node

/-- Helper: the source tick body is exactly the four-step decomposition the
spec describes (integrate, reflect, pulse, pointer adjustment). -/
theorem updateNode_decomp (o : Options) (m : Mouse) (w h : ℚ) (time : ℚ)
    (node : Node) :
    updateNode o m w h time node =
      specPointerAdjust o m (specPulse o time (specReflect w h (specIntegrate node))) := by
  unfold updateNode specPointerAdjust specPulse specReflect specIntegrate
  unfold specPulseAmplitude specPulseRate specPointerStrength specRepelSign
    specMaxVelocityFactor
  set n1 : Node := { node with x := node.x + node.vx, y := node.y + node.vy } with hn1
  set n2 : Node :=
    if n1.x < 0 ∨ n1.x > (w : ℝ) then
      { n1 with vx := -n1.vx, x := max 0 (min (w : ℝ) n1.x) }
    else n1 with hn2
  set n3 : Node :=
    if n2.y < 0 ∨ n2.y > (h : ℝ) then
      { n2 with vy := -n2.vy, y := max 0 (min (h : ℝ) n2.y) }
    else n2 with hn3
  set n4 : Node :=
    if o.pulseEffect then
      { n3 with
          size := n3.originalSize *
            (1 + 0.2 * Real.sin ((time : ℝ) * 0.002 + n3.pulseOffset)) }
    else n3 with hn4
  by_cases hm : m.active
  · simp only [hm, if_true]
    by_cases hd :
        Real.sqrt ((m.x - n4.x) * (m.x - n4.x) + (m.y - n4.y) * (m.y - n4.y)) <
          (o.connectionDistance : ℝ) * 1.5
    · simp only [hd, if_pos]
      have harg :
          (m.x - n4.x) * ((1 - Real.sqrt ((m.x - n4.x) * (m.x - n4.x) +
              (m.y - n4.y) * (m.y - n4.y)) / ((o.connectionDistance : ℝ) * 1.5)) * 0.05) * -1 =
            (1 - Real.sqrt ((m.x - n4.x) * (m.x - n4.x) +
              (m.y - n4.y) * (m.y - n4.y)) / ((o.connectionDistance : ℝ) * 1.5)) * 0.05 * -1 *
              (m.x - n4.x) := by ring
      have harg' :
          (m.y - n4.y) * ((1 - Real.sqrt ((m.x - n4.x) * (m.x - n4.x) +
              (m.y - n4.y) * (m.y - n4.y)) / ((o.connectionDistance : ℝ) * 1.5)) * 0.05) * -1 =
            (1 - Real.sqrt ((m.x - n4.x) * (m.x - n4.x) +
              (m.y - n4.y) * (m.y - n4.y)) / ((o.connectionDistance : ℝ) * 1.5)) * 0.05 * -1 *
              (m.y - n4.y) := by ring
      rw [harg, harg']
    · simp [hd]
  · simp [hm]

theorem specPulse_x (o : Options) (time : ℚ) (n : Node) :
    (specPulse o time n).x = n.x := by
  unfold specPulse; split <;> rfl

theorem specPulse_y (o : Options) (time : ℚ) (n : Node) :
    (specPulse o time n).y = n.y := by
  unfold specPulse; split <;> rfl

theorem specPulse_vx (o : Options) (time : ℚ) (n : Node) :
    (specPulse o time n).vx = n.vx := by
  unfold specPulse; split <;> rfl

theorem specPointerAdjust_x (o : Options) (m : Mouse) (n : Node) :
    (specPointerAdjust o m n).x = n.x := by
  unfold specPointerAdjust; dsimp only; split_ifs <;> rfl

theorem specPointerAdjust_y (o : Options) (m : Mouse) (n : Node) :
    (specPointerAdjust o m n).y = n.y := by
  unfold specPointerAdjust; dsimp only; split_ifs <;> rfl

/-- After boundary reflection the position lies in `[0,w] × [0,h]`
(for nonnegative container dimensions). -/
theorem specReflect_bounds (w h : ℚ) (hw : 0 ≤ w) (hh : 0 ≤ h) (n : Node) :
    0 ≤ (specReflect w h n).x ∧ (specReflect w h n).x ≤ (w : ℝ) ∧
    0 ≤ (specReflect w h n).y ∧ (specReflect w h n).y ≤ (h : ℝ) := by
  have hw' : (0 : ℝ) ≤ (w : ℝ) := by exact_mod_cast hw
  have hh' : (0 : ℝ) ≤ (h : ℝ) := by exact_mod_cast hh
  unfold specReflect
  set n1 : Node :=
    if n.x < 0 ∨ n.x > (w : ℝ) then
      { n with vx := -n.vx, x := max 0 (min (w : ℝ) n.x) }
    else n with hn1
  have hx : 0 ≤ n1.x ∧ n1.x ≤ (w : ℝ) := by
    rw [hn1]; split_ifs with hc
    · exact ⟨le_max_left _ _, max_le hw' (min_le_left _ _)⟩
    · push_neg at hc
      exact hc
  dsimp only
  split_ifs with hc2
  · exact ⟨hx.1, hx.2, le_max_left _ _, max_le hh' (min_le_left _ _)⟩
  · push_neg at hc2
    exact ⟨hx.1, hx.2, hc2.1, hc2.2⟩

/-- C3. One simulation tick (`updateNodes`) transforms every node as exactly
the composition of: position integration, boundary reflection, pulsing
(size `= baseSize × (1 + amplitude × sin(time × rate + phase))` when
enabled), and the pointer interaction (a velocity change collinear with the
node→pointer vector with factor proportional to `1 − distance/maxDistance`,
applied only when the pointer is active and within
`connectionDistance × 1.5`, followed by a clamp of the velocity magnitude to
a configured multiple of the base speed) — and nothing else. -/
theorem updateNode_is_spec_tick (o : Options) (m : Mouse) (w h : ℚ) (time : ℚ)
    (node : Node) :
    updateNode o m w h time node =
      specPointerAdjust o m (specPulse o time (specReflect w h (specIntegrate node))) :=
  updateNode_decomp o m w h time node

/-- Targets on which `addEventListener` is called (source lines 268-305). -/
inductive EvTarget
  | window
  | container
  | document
  deriving DecidableEq

/-- Event names used by `setupEventListeners`. -/
inductive EvName
  | resizeEvent
  | mousemove
  | mouseleave
  | mouseenter
  | touchmove
  | touchstart
  | touchend
  | visibilitychange
  deriving DecidableEq

/-- Identity of a JavaScript handler function.  Each `.bind(this)` call and
each arrow-function literal evaluation yields a fresh function object; the
nonce records that identity.  The constructor tells which source handler the
function wraps. -/
inductive Handler
  | resizeBound (nonce : ℕ)
  | mouseMoveBound (nonce : ℕ)
  | touchMoveBound (nonce : ℕ)
  | leaveArrow (nonce : ℕ)
  | enterArrow (nonce : ℕ)
  | endArrow (nonce : ℕ)
  | visArrow (nonce : ℕ)
  deriving DecidableEq

/-- One registered event listener. -/
structure Listener where
  target : EvTarget
  event : EvName
  handler : Handler
  deriving DecidableEq

/-- Whether the instance's `animate` field currently points at the WebGL loop
or was overridden with `animateCanvas` by `fallbackToCanvas`. -/
inductive RenderMode
  | webgl
  | canvas2d
  deriving DecidableEq

/-- The mutable state of one `WebGLNeuralNetwork` instance: the fields of
`this` that the claims are about, plus the liveness of the GPU resources, the
DOM attachment of the canvas, and the registered listeners. -/
structure Inst where
  options : Options
  width : ℚ
  height : ℚ
  time : ℚ
  nodes : List Node
  mouse : Mouse
  isVisible : Bool
  shouldRender : Bool
  performanceLevel : PerfLevel
  glPresent : Bool
  renderMode : RenderMode
  canvasPresent : Bool
  canvasInDom : Bool
  observerPresent : Bool
  observerConnected : Bool
  listeners : List Listener
  bufNodePosLive : Bool
  bufNodeSizeLive : Bool
  bufConnPosLive : Bool
  progNodeLive : Bool
  progConnLive : Bool
  rafQueued : Bool

/-- Source `createNodes` ( lines 248-263): reseed `this.nodes` with
`adjustNodeCountForPerformance()` fresh nodes; the seven `Math.random()`
calls of node `i` read stream positions `7i … 7i+6`. -/
noncomputable def createNodes (s : Inst) (rnd : ℕ → ℝ) : Inst :=
  let count := adjustNodeCountForPerformance s.options s.performanceLevel s.width s.height
  { s with
      nodes := (List.range count.toNat).map fun i =>
        { x := rnd (7 * i) * (s.width : ℝ)
          y := rnd (7 * i + 1) * (s.height : ℝ)
          vx := (rnd (7 * i + 2) - 0.5) * (s.options.speed : ℝ)
          vy := (rnd (7 * i + 3) - 0.5) * (s.options.speed : ℝ)
          size := rnd (7 * i + 4) * (s.options.nodeSize : ℝ) + 1.5
          originalSize := rnd (7 * i + 5) * (s.options.nodeSize : ℝ) + 1.5
          pulseOffset := rnd (7 * i + 6) * Real.pi * 2 } }

/-- Source `resize` ( lines 333-353): adopt the container's new dimensions,
resize the canvas, call `gl.viewport`, and re-randomize every node position
within the new bounds (the two `Math.random()` calls of node `i` read stream
positions `2i` and `2i+1`).  When the instance is in Canvas fallback mode
`this.gl` is `null`, so `this.gl.viewport(...)` raises a `TypeError` before
the node positions are reset. -/
noncomputable def resize (s : Inst) (newW newH : ℚ) (rnd : ℕ → ℝ) :
    Inst × Option JsError :=
  let s := { s with width := newW, height := newH }
  if s.glPresent then
    ({ s with
        nodes := s.nodes.mapIdx fun i n =>
          { n with x := rnd (2 * i) * (newW : ℝ), y := rnd (2 * i + 1) * (newH : ℝ) } },
      none)
  else (s, some .typeError)

/-- Source `updateNodes` (lines 490-542): apply the tick body to every node. -/
noncomputable def updateNodesStep (s : Inst) : Inst :=
  { s with nodes := s.nodes.map (updateNode s.options s.mouse s.width s.height s.time) }

/-- The body of one `animate` frame callback (source lines 711-738):
`requestAnimationFrame` is called again unconditionally first; then, unless
the guard skips the frame, the time is updated and the nodes are simulated
(the buffer uploads, clear and draw calls touch only the GPU).  The returned
boolean records whether the body past the guard ran. -/
noncomputable def frameStep (s : Inst) (now : ℚ) : Inst × Bool :=
  let s := { s with rafQueued := true }
  if !s.isVisible || !s.shouldRender then (s, false)
  else
    let s := { s with time := now }
    let s := updateNodesStep s
    (s, true)

/-- When the position has exited the x-range, reflection inverts `vx` and
clamps `x` — a reflect, not a silent clamp. -/
theorem specReflect_reflects_x (w h : ℚ) (n : Node)
    (hout : n.x < 0 ∨ n.x > (w : ℝ)) :
    (specReflect w h n).vx = -n.vx ∧
    (specReflect w h n).x = max 0 (min (w : ℝ) n.x) := by
  unfold specReflect
  rw [if_pos hout]
  constructor
  · conv_lhs => zeta
    split_ifs <;> rfl
  · conv_lhs => zeta
    split_ifs <;> rfl

/-- C1. After a simulation tick every node position satisfies
`0 ≤ x ≤ width` and `0 ≤ y ≤ height`; immediately after a `resize` the node
positions satisfy the invariant against the new dimensions; and boundary
contact is a reflect, not a silent clamp: when the integrated position exits
an axis, that axis's velocity component is inverted and the position clamped
back into range (stated for an inactive pointer, which otherwise further
adjusts the velocity afterwards). -/
theorem boundary_invariant_holds (o : Options) (m : Mouse) (w h : ℚ) (t : ℚ)
    (n : Node) (s : Inst) (w' h' : ℚ) (rnd : ℕ → ℝ)
    (hw : 0 ≤ w) (hh : 0 ≤ h) (hw' : 0 ≤ w') (hh' : 0 ≤ h')
    (hgl : s.glPresent = true) (hr : ∀ i, 0 ≤ rnd i ∧ rnd i < 1) :
    (0 ≤ (updateNode o m w h t n).x ∧ (updateNode o m w h t n).x ≤ (w : ℝ) ∧
     0 ≤ (updateNode o m w h t n).y ∧ (updateNode o m w h t n).y ≤ (h : ℝ))
    ∧ (∀ nd ∈ ((resize s w' h' rnd).1).nodes,
        0 ≤ nd.x ∧ nd.x ≤ (w' : ℝ) ∧ 0 ≤ nd.y ∧ nd.y ≤ (h' : ℝ))
    ∧ (m.active = false →
        (n.x + n.vx < 0 ∨ n.x + n.vx > (w : ℝ)) →
          (updateNode o m w h t n).vx = -n.vx ∧
          (updateNode o m w h t n).x = max 0 (min (w : ℝ) (n.x + n.vx))) := by
  refine ⟨?_, ?_, ?_⟩
  · have hb := specReflect_bounds w h hw hh (specIntegrate n)
    simp only [updateNode_decomp, specPointerAdjust_x, specPointerAdjust_y,
      specPulse_x, specPulse_y]
    exact hb
  · intro nd hnd
    have hw'' : (0 : ℝ) ≤ (w' : ℝ) := by exact_mod_cast hw'
    have hh'' : (0 : ℝ) ≤ (h' : ℝ) := by exact_mod_cast hh'
    unfold resize at hnd
    simp only [hgl] at hnd
    rw [List.mapIdx_eq_enum_map] at hnd
    rcases List.mem_map.mp hnd with ⟨⟨i, a⟩, _, rfl⟩
    refine ⟨mul_nonneg (hr (2 * i)).1 hw'', ?_,
      mul_nonneg (hr (2 * i + 1)).1 hh'', ?_⟩
    · exact mul_le_of_le_one_left hw'' (hr (2 * i)).2.le
    · exact mul_le_of_le_one_left hh'' (hr (2 * i + 1)).2.le
  · intro hm hout
    have h4 : ∀ nd : Node, specPointerAdjust o m nd = nd := by
      intro nd; unfold specPointerAdjust; rw [hm]; simp
    rw [updateNode_decomp, h4, specPulse_vx, specPulse_x]
    exact specReflect_reflects_x w h (specIntegrate n) hout

/-- Witness for C1 at concrete inputs. -/
theorem boundary_invariant_holds_witness :
    (0 : ℚ) ≤ 200 ∧ (0 : ℚ) ≤ 100 ∧
    ((updateNode defaultOptions ⟨0, 0, false⟩ 200 100 0
        { x := 195, y := 50, vx := 10, vy := 0, size := 2, originalSize := 2,
          pulseOffset := 0 }).vx = -(10 : ℝ) ∧
      (updateNode defaultOptions ⟨0, 0, false⟩ 200 100 0
        { x := 195, y := 50, vx := 10, vy := 0, size := 2, originalSize := 2,
          pulseOffset := 0 }).x = max 0 (min ((200 : ℚ) : ℝ) (195 + 10))) := by
  have h := boundary_invariant_holds defaultOptions ⟨0, 0, false⟩ 200 100 0
    { x := 195, y := 50, vx := 10, vy := 0, size := 2, originalSize := 2,
      pulseOffset := 0 }
    { options := defaultOptions, width := 100, height := 100, time := 0,
      nodes := [], mouse := ⟨0, 0, false⟩, isVisible := true,
      shouldRender := true, performanceLevel := .high, glPresent := true,
      renderMode := .webgl, canvasPresent := true, canvasInDom := true,
      observerPresent := true, observerConnected := true, listeners := [],
      bufNodePosLive := true, bufNodeSizeLive := true, bufConnPosLive := true,
      progNodeLive := true, progConnLive := true, rafQueued := true }
    300 200 (fun _ => 1/2) (by norm_num) (by norm_num) (by norm_num)
    (by norm_num) rfl (fun i => by norm_num)
  refine ⟨by norm_num, by norm_num, h.2.2 rfl ?_⟩
  right
  push_cast
  norm_num

instance : Inhabited Node :=
  ⟨{ x := 0, y := 0, vx := 0, vy := 0, size := 0, originalSize := 0, pulseOffset := 0 }⟩

/-- A node's position as a point. -/
def Node.pos (n : Node) : ℝ × ℝ := (n.x, n.y)

/-- The expression `Math.sqrt(dx*dx + dy*dy)` by which the source computes distances
(lines 590-592, 603-605, 802-805, 822-824). -/
noncomputable def nodeDistance (a b : ℝ × ℝ) : ℝ :=
  Real.sqrt ((a.1 - b.1) * (a.1 - b.1) + (a.2 - b.2) * (a.2 - b.2))

/-- The Euclidean distance, as the spec words it. -/
noncomputable def euclideanDistance (a b : ℝ × ℝ) : ℝ :=
  Real.sqrt ((a.1 - b.1) ^ 2 + (a.2 - b.2) ^ 2)

theorem nodeDistance_eq_euclidean (a b : ℝ × ℝ) :
    nodeDistance a b = euclideanDistance a b := by
  unfold nodeDistance euclideanDistance
  congr 1
  ring

theorem nodeDistance_symm_euclidean (a b : ℝ × ℝ) :
    nodeDistance a b = euclideanDistance b a := by
  unfold nodeDistance euclideanDistance
  congr 1
  ring

/-- Source `prepareConnectionData` ( lines 574-622): the line segments pushed
into the connections array, in push order.  For each node `i`: a segment to
every later node `j` strictly within `connectionDistance`, then — when the
pointer is active — a segment to the pointer strictly within
`connectionDistance × 1.5`. -/
noncomputable def prepareConnectionData (nodes : List Node) (m : Mouse) (cd : ℚ) :
    List ((ℝ × ℝ) × (ℝ × ℝ)) :=
  (List.range nodes.length).flatMap fun i =>
    (((List.range nodes.length).filter fun j => decide (i < j)).filterMap fun j =>
      if nodeDistance (nodes.getD i default).pos (nodes.getD j default).pos < (cd : ℝ) then
        some ((nodes.getD i default).pos, (nodes.getD j default).pos)
      else none)
    ++ (if m.active then
          (if nodeDistance (m.x, m.y) (nodes.getD i default).pos < (cd : ℝ) * 1.5 then
            [((nodes.getD i default).pos, (m.x, m.y))]
          else [])
        else [])

/-- The segments stroked by the Canvas fallback loop `animateCanvas`
(source lines 795-837): identical iteration and inclusion tests, with the
same strict `<` comparisons against `connectionDistance` and
`connectionDistance × 1.5`. -/
noncomputable def canvasConnectionSegments (nodes : List Node) (m : Mouse) (cd : ℚ) :
    List ((ℝ × ℝ) × (ℝ × ℝ)) :=
  (List.range nodes.length).flatMap fun i =>
    (((List.range nodes.length).filter fun j => decide (i < j)).filterMap fun j =>
      if nodeDistance (nodes.getD i default).pos (nodes.getD j default).pos < (cd : ℝ) then
        some ((nodes.getD i default).pos, (nodes.getD j default).pos)
      else none)
    ++ (if m.active then
          (if nodeDistance (m.x, m.y) (nodes.getD i default).pos < (cd : ℝ) * 1.5 then
            [((nodes.getD i default).pos, (m.x, m.y))]
          else [])
        else [])

/-- Membership characterisation of the per-frame connection list, phrased
with the source's distance expression. -/
theorem mem_prepareConnectionData (nodes : List Node) (m : Mouse) (cd : ℚ)
    (seg : (ℝ × ℝ) × (ℝ × ℝ)) :
    seg ∈ prepareConnectionData nodes m cd ↔
      ((∃ i j : ℕ, i < j ∧ j < nodes.length ∧
          nodeDistance (nodes.getD i default).pos (nodes.getD j default).pos < (cd : ℝ) ∧
          seg = ((nodes.getD i default).pos, (nodes.getD j default).pos))
      ∨ (m.active = true ∧ ∃ i : ℕ, i < nodes.length ∧
          nodeDistance (m.x, m.y) (nodes.getD i default).pos < (cd : ℝ) * 1.5 ∧
          seg = ((nodes.getD i default).pos, (m.x, m.y)))) := by
  unfold prepareConnectionData
  rw [List.mem_flatMap]
  constructor
  · rintro ⟨i, hi, hseg⟩
    rw [List.mem_range] at hi
    rcases List.mem_append.mp hseg with hp | hmp
    · rcases List.mem_filterMap.mp hp with ⟨j, hj, hj2⟩
      have hj' := List.mem_filter.mp hj
      rw [List.mem_range] at hj'
      have hij : i < j := by simpa using hj'.2
      left
      split_ifs at hj2 with hd
      exact ⟨i, j, hij, hj'.1, hd, (Option.some.inj hj2).symm⟩
    · by_cases hact : m.active
      · rw [if_pos hact] at hmp
        split_ifs at hmp with hd
        · right
          refine ⟨hact, i, hi, hd, ?_⟩
          simpa using hmp
        · simp at hmp
      · rw [if_neg hact] at hmp
        simp at hmp
  · rintro (⟨i, j, hij, hj, hd, rfl⟩ | ⟨hact, i, hi, hd, rfl⟩)
    · refine ⟨i, List.mem_range.mpr (lt_trans hij hj), ?_⟩
      apply List.mem_append.mpr
      left
      apply List.mem_filterMap.mpr
      refine ⟨j, ?_, ?_⟩
      · rw [List.mem_filter, List.mem_range]
        exact ⟨hj, by simpa using hij⟩
      · rw [if_pos hd]
    · refine ⟨i, List.mem_range.mpr hi, ?_⟩
      apply List.mem_append.mpr
      right
      rw [if_pos hact, if_pos hd]
      simp

/-- C2. The connection set built each frame is exactly: every (index-ordered)
pair of nodes whose Euclidean distance is strictly below
`connectionDistance`, plus — when the pointer is active — every node whose
Euclidean distance to the pointer is strictly below
`connectionDistance × 1.5`; and the Canvas fallback path strokes exactly the
same segment list, built with the same strict `<` tests. -/
theorem connection_set_exact (nodes : List Node) (m : Mouse) (cd : ℚ) :
    (∀ seg : (ℝ × ℝ) × (ℝ × ℝ),
      seg ∈ prepareConnectionData nodes m cd ↔
        ((∃ i j : ℕ, i < j ∧ j < nodes.length ∧
            euclideanDistance (nodes.getD i default).pos (nodes.getD j default).pos < (cd : ℝ) ∧
            seg = ((nodes.getD i default).pos, (nodes.getD j default).pos))
        ∨ (m.active = true ∧ ∃ i : ℕ, i < nodes.length ∧
            euclideanDistance (nodes.getD i default).pos (m.x, m.y) < (cd : ℝ) * 1.5 ∧
            seg = ((nodes.getD i default).pos, (m.x, m.y)))))
    ∧ canvasConnectionSegments nodes m cd = prepareConnectionData nodes m cd := by
  constructor
  · intro seg
    rw [mem_prepareConnectionData]
    constructor
    · rintro (⟨i, j, hij, hj, hd, rfl⟩ | ⟨hact, i, hi, hd, rfl⟩)
      · exact Or.inl ⟨i, j, hij, hj, by rw [← nodeDistance_eq_euclidean]; exact hd, rfl⟩
      · exact Or.inr ⟨hact, i, hi, by rw [← nodeDistance_symm_euclidean]; exact hd, rfl⟩
    · rintro (⟨i, j, hij, hj, hd, rfl⟩ | ⟨hact, i, hi, hd, rfl⟩)
      · exact Or.inl ⟨i, j, hij, hj, by rw [nodeDistance_eq_euclidean]; exact hd, rfl⟩
      · exact Or.inr ⟨hact, i, hi, by rw [nodeDistance_symm_euclidean]; exact hd, rfl⟩
  · rfl

/-- Browser `addEventListener`: append a registration. -/
def addListener (s : Inst) (l : Listener) : Inst :=
  { s with listeners := s.listeners ++ [l] }

/-- Browser `removeEventListener`: drop the matching registration.  A call whose
function argument is a fresh `.bind` result or arrow literal matches
nothing. -/
def removeListener (s : Inst) (l : Listener) : Inst :=
  { s with listeners := s.listeners.filter fun e => e != l }

theorem removeListener_not_mem (s : Inst) (l : Listener) (h : l ∉ s.listeners) :
    removeListener s l = s := by
  unfold removeListener
  have he : s.listeners.filter (fun e => e != l) = s.listeners :=
    List.filter_eq_self.mpr fun a ha => by
      simp only [bne_iff_ne, ne_eq, decide_eq_true_eq]
      exact fun hal => h (hal ▸ ha)
  rw [he]

/-- Source `setupEventListeners` ( lines 268-305): register the resize
listener, the six pointer listeners when interactive, the intersection
observer when the API is available, and the document `visibilitychange`
listener.  The handler nonces start at `nb`. -/
def setupEventListeners (s : Inst) (nb : ℕ) (observerApiAvailable : Bool) : Inst :=
  let s := addListener s ⟨.window, .resizeEvent, .resizeBound nb⟩
  let s :=
    if s.options.interactive then
      let s := addListener s ⟨.container, .mousemove, .mouseMoveBound (nb + 1)⟩
      let s := addListener s ⟨.container, .mouseleave, .leaveArrow (nb + 2)⟩
      let s := addListener s ⟨.container, .mouseenter, .enterArrow (nb + 3)⟩
      let s := addListener s ⟨.container, .touchmove, .touchMoveBound (nb + 4)⟩
      let s := addListener s ⟨.container, .touchstart, .touchMoveBound (nb + 5)⟩
      addListener s ⟨.container, .touchend, .endArrow (nb + 6)⟩
    else s
  let s :=
    if observerApiAvailable then
      { s with observerPresent := true, observerConnected := true }
    else s
  addListener s ⟨.document, .visibilitychange, .visArrow (nb + 7)⟩

/-- Step of `destroy`: `// Stop animation` (source line 893). -/
def destroyStopRender (s : Inst) : Inst :=
  { s with shouldRender := false }

/-- Step of `destroy`: `// Remove event listeners` (source lines 896-912).
Every `removeEventListener` argument is a freshly created `.bind(this)`
result or arrow literal, with nonces from `nb`. -/
def destroyRemoveListeners (s : Inst) (nb : ℕ) : Inst :=
  let s := removeListener s ⟨.window, .resizeEvent, .resizeBound nb⟩
  if s.options.interactive then
    let s := removeListener s ⟨.container, .mousemove, .mouseMoveBound (nb + 1)⟩
    let s := removeListener s ⟨.container, .mouseleave, .leaveArrow (nb + 2)⟩
    let s := removeListener s ⟨.container, .mouseenter, .enterArrow (nb + 3)⟩
    let s := removeListener s ⟨.container, .touchmove, .touchMoveBound (nb + 4)⟩
    let s := removeListener s ⟨.container, .touchstart, .touchMoveBound (nb + 5)⟩
    removeListener s ⟨.container, .touchend, .endArrow (nb + 6)⟩
  else s

/-- Step of `destroy`: `// Stop observing visibility` (source lines 915-917). -/
def destroyDisconnectObserver (s : Inst) : Inst :=
  if s.observerPresent then { s with observerConnected := false } else s

/-- Step of `destroy`: `// Remove canvas from DOM` (source lines 920-922). -/
def destroyDetachCanvas (s : Inst) : Inst :=
  if s.canvasPresent && s.canvasInDom then { s with canvasInDom := false } else s

/-- Step of `destroy`: `// Delete WebGL resources` (source lines 925-934). -/
def destroyReleaseGL (s : Inst) : Inst :=
  if s.glPresent then
    { s with
        bufNodePosLive := false
        bufNodeSizeLive := false
        bufConnPosLive := false
        progNodeLive := false
        progConnLive := false }
  else s

/-- Source `destroy` (lines 891-935): the five steps in source order. -/
def destroy (s : Inst) (nb : ℕ) : Inst :=
  destroyReleaseGL
    (destroyDetachCanvas
      (destroyDisconnectObserver (destroyRemoveListeners (destroyStopRender s) nb)))

/-- The listener entries `destroy` attempts to remove: all are fresh
function objects (nonces from `nb`). -/
def destroyRemovals (interactive : Bool) (nb : ℕ) : List Listener :=
  ⟨.window, .resizeEvent, .resizeBound nb⟩ ::
    (if interactive then
      [⟨.container, .mousemove, .mouseMoveBound (nb + 1)⟩,
       ⟨.container, .mouseleave, .leaveArrow (nb + 2)⟩,
       ⟨.container, .mouseenter, .enterArrow (nb + 3)⟩,
       ⟨.container, .touchmove, .touchMoveBound (nb + 4)⟩,
       ⟨.container, .touchstart, .touchMoveBound (nb + 5)⟩,
       ⟨.container, .touchend, .endArrow (nb + 6)⟩]
    else [])

/-- The state change `destroy` actually performs: rendering stopped, observer
disconnected, canvas detached (once), GL resources released — and the
listener registry untouched, because every removal uses a fresh function. -/
def destroyEffect (s : Inst) : Inst :=
  { s with
      shouldRender := false
      observerConnected := if s.observerPresent then false else s.observerConnected
      canvasInDom := if s.canvasPresent && s.canvasInDom then false else s.canvasInDom
      bufNodePosLive := if s.glPresent then false else s.bufNodePosLive
      bufNodeSizeLive := if s.glPresent then false else s.bufNodeSizeLive
      bufConnPosLive := if s.glPresent then false else s.bufConnPosLive
      progNodeLive := if s.glPresent then false else s.progNodeLive
      progConnLive := if s.glPresent then false else s.progConnLive }

/-- With fresh removal arguments, the listener-removal step of `destroy` is
the identity: nothing matches, nothing is detached. -/
theorem destroyRemoveListeners_fresh (s : Inst) (nb : ℕ)
    (h : ∀ l ∈ destroyRemovals s.options.interactive nb, l ∉ s.listeners) :
    destroyRemoveListeners s nb = s := by
  unfold destroyRemoveListeners
  have h0 := h ⟨.window, .resizeEvent, .resizeBound nb⟩ (by simp [destroyRemovals])
  rw [removeListener_not_mem _ _ h0]
  by_cases hI : s.options.interactive
  · have h1 := h ⟨.container, .mousemove, .mouseMoveBound (nb + 1)⟩
      (by simp [destroyRemovals, hI])
    have h2 := h ⟨.container, .mouseleave, .leaveArrow (nb + 2)⟩
      (by simp [destroyRemovals, hI])
    have h3 := h ⟨.container, .mouseenter, .enterArrow (nb + 3)⟩
      (by simp [destroyRemovals, hI])
    have h4 := h ⟨.container, .touchmove, .touchMoveBound (nb + 4)⟩
      (by simp [destroyRemovals, hI])
    have h5 := h ⟨.container, .touchstart, .touchMoveBound (nb + 5)⟩
      (by simp [destroyRemovals, hI])
    have h6 := h ⟨.container, .touchend, .endArrow (nb + 6)⟩
      (by simp [destroyRemovals, hI])
    rw [if_pos hI]
    conv_lhs => zeta
    rw [removeListener_not_mem _ _ h1, removeListener_not_mem _ _ h2,
      removeListener_not_mem _ _ h3, removeListener_not_mem _ _ h4,
      removeListener_not_mem _ _ h5, removeListener_not_mem _ _ h6]
  · rw [if_neg hI]

theorem destroy_eq_destroyEffect (s : Inst) (nb : ℕ)
    (h : ∀ l ∈ destroyRemovals s.options.interactive nb, l ∉ s.listeners) :
    destroy s nb = destroyEffect s := by
  unfold destroy
  rw [destroyRemoveListeners_fresh (destroyStopRender s) nb h]
  unfold destroyStopRender destroyDisconnectObserver destroyDetachCanvas
    destroyReleaseGL destroyEffect
  split_ifs <;> rfl

/-- The function `destroyEffect` is idempotent. -/
theorem destroyEffect_idem (s : Inst) : destroyEffect (destroyEffect s) = destroyEffect s := by
  unfold destroyEffect
  by_cases h1 : s.observerPresent <;>
    by_cases h2 : s.canvasPresent <;>
      by_cases h3 : s.canvasInDom <;>
        by_cases h4 : s.glPresent <;>
          simp [h1, h2, h3, h4]

theorem destroy_listeners_eq (s : Inst) (nb : ℕ)
    (h : ∀ l ∈ destroyRemovals s.options.interactive nb, l ∉ s.listeners) :
    (destroy s nb).listeners = s.listeners := by
  rw [destroy_eq_destroyEffect s nb h]
  rfl

/-- C9. Disposal is idempotent: a second `destroy` call (with its own fresh
handler objects) terminates normally and produces exactly the state of the
first call — nothing is double-freed: the canvas is not removed again, the
listener registry is unchanged, and the GL delete calls act on flags already
cleared. -/
theorem destroy_idempotent (s : Inst) (n1 n2 : ℕ)
    (h1 : ∀ l ∈ destroyRemovals s.options.interactive n1, l ∉ s.listeners)
    (h2 : ∀ l ∈ destroyRemovals s.options.interactive n2, l ∉ s.listeners) :
    destroy (destroy s n1) n2 = destroy s n1 := by
  have e1 := destroy_eq_destroyEffect s n1 h1
  have hopts : (destroy s n1).options = s.options := by rw [e1]; rfl
  have hlis : (destroy s n1).listeners = s.listeners := destroy_listeners_eq s n1 h1
  have e2 := destroy_eq_destroyEffect (destroy s n1) n2 (by rw [hopts, hlis]; exact h2)
  rw [e2, e1, destroyEffect_idem]

/-- A concrete fully-constructed instance state used by witnesses: default
options, an 800×600 container, WebGL mode, no nodes yet, no listeners yet. -/
def sampleBase : Inst :=
  { options := defaultOptions
    width := 800
    height := 600
    time := 0
    nodes := []
    mouse := ⟨0, 0, false⟩
    isVisible := true
    shouldRender := true
    performanceLevel := .high
    glPresent := true
    renderMode := .webgl
    canvasPresent := true
    canvasInDom := true
    observerPresent := false
    observerConnected := false
    listeners := []
    bufNodePosLive := true
    bufNodeSizeLive := true
    bufConnPosLive := true
    progNodeLive := true
    progConnLive := true
    rafQueued := true }

/-- State `sampleBase` after `setupEventListeners` with nonce base 0. -/
def sampleInst : Inst := setupEventListeners sampleBase 0 true

/-- Witness for C9 at the concrete instance `sampleInst`, with destroy-call
nonces 100 and 200. -/
theorem destroy_idempotent_witness :
    (∀ l ∈ destroyRemovals sampleInst.options.interactive 100, l ∉ sampleInst.listeners) ∧
    (∀ l ∈ destroyRemovals sampleInst.options.interactive 200, l ∉ sampleInst.listeners) ∧
    destroy (destroy sampleInst 100) 200 = destroy sampleInst 100 :=
  ⟨by decide, by decide,
    destroy_idempotent sampleInst 100 200 (by decide) (by decide)⟩

/-- Payload carried by a dispatched browser event. -/
inductive EventPayload
  | resized (w h : ℚ) (rnd : ℕ → ℝ)
  | pointer (x y : ℝ)
  | visibility (v : Bool)
  | plain

/-- The effect of one registered handler (source lines 270-328, 302-304):
`resize` (bound), `handleMouseMove` (bound), `handleTouchMove` (bound), the
`mouseleave`/`mouseenter`/`touchend` arrow functions, and the
`visibilitychange` arrow function which sets `shouldRender` from the
document's visibility.  An exception thrown inside a handler is swallowed by
the event loop, keeping the state changes made before the throw. -/
noncomputable def runHandler (h : Handler) (p : EventPayload) (s : Inst) : Inst :=
  match h, p with
  | .resizeBound _, .resized w hh rnd => (resize s w hh rnd).1
  | .mouseMoveBound _, .pointer x y => { s with mouse := ⟨x, y, true⟩ }
  | .touchMoveBound _, .pointer x y => { s with mouse := ⟨x, y, true⟩ }
  | .leaveArrow _, _ => { s with mouse := { s.mouse with active := false } }
  | .enterArrow _, _ => { s with mouse := { s.mouse with active := true } }
  | .endArrow _, _ => { s with mouse := { s.mouse with active := false } }
  | .visArrow _, .visibility v => { s with shouldRender := v }
  | _, _ => s

/-- Dispatch one browser event: every listener registered for this target
and event name runs, in registration order. -/
noncomputable def dispatchEvent (s : Inst) (tgt : EvTarget) (ev : EvName)
    (p : EventPayload) : Inst :=
  (s.listeners.filter fun l => l.target == tgt && l.event == ev).foldl
    (fun st l => runHandler l.handler p st) s

/-- C5 (refutation at a concrete trace).  After `destroy`, rendering is
stopped — but the `visibilitychange` listener is still registered (none of
the `removeEventListener` calls matched, and that listener is never removed
at all), the animation loop is still re-queued, and a later visibility
change flips `shouldRender` back on, so the next queued frame callback runs
the full simulate step again: the frame body past the guard executes and
updates the clock. -/
theorem post_destroy_frame_still_works :
    ((destroy sampleInst 100).listeners = sampleInst.listeners) ∧
    ((destroy sampleInst 100).shouldRender = false) ∧
    ((dispatchEvent (destroy sampleInst 100) .document .visibilitychange
        (.visibility true)).shouldRender = true) ∧
    ((frameStep (dispatchEvent (destroy sampleInst 100) .document .visibilitychange
        (.visibility true)) 5).2 = true) ∧
    ((frameStep (dispatchEvent (destroy sampleInst 100) .document .visibilitychange
        (.visibility true)) 5).1.time = 5) := by
  refine ⟨by decide, by decide, ?_, ?_, ?_⟩ <;> rfl

/-- The four shader sources of `setupShaders`; their GLSL text plays no role
in any claim. -/
inductive ShaderSrc
  | nodeVertex
  | nodeFragment
  | connectionVertex
  | connectionFragment
  deriving DecidableEq

/-- A linked shader program handle. -/
structure ShaderProgram where
  vertex : ShaderSrc
  fragment : ShaderSrc
  deriving DecidableEq

/-- Behaviour of the GL driver: which shaders compile, which programs link. -/
structure GLDriver where
  compileOk : ShaderSrc → Bool
  linkOk : ShaderSrc → ShaderSrc → Bool

/-- Source `createShaderProgram` ( lines 199-229): log and return `null`
(`none`) when vertex compilation, fragment compilation or linking fails;
otherwise return the program. -/
def createShaderProgram (gl : GLDriver) (vs fs : ShaderSrc) : Option ShaderProgram :=
  if !gl.compileOk vs then none
  else if !gl.compileOk fs then none
  else if !gl.linkOk vs fs then none
  else some ⟨vs, fs⟩

/-- The two program handles `setupShaders` leaves on the instance. -/
structure ShaderState where
  nodeProgram : ShaderProgram
  connectionProgram : ShaderProgram
  deriving DecidableEq

/-- Source `setupShaders` ( lines 177-194).  Both programs are created first
(lines 178-179); then `this.nodeProgram.aPosition = this.gl.getAttribLocation(...)`
(line 182) runs with no null check, so a `null` node program raises a
`TypeError`; the same holds for the connection program at line 190. -/
def setupShaders (gl : GLDriver) : Except JsError ShaderState :=
  let nodeProgram := createShaderProgram gl .nodeVertex .nodeFragment
  let connectionProgram := createShaderProgram gl .connectionVertex .connectionFragment
  match nodeProgram with
  | none => .error .typeError
  | some np =>
    match connectionProgram with
    | none => .error .typeError
    | some cp => .ok ⟨np, cp⟩

/-- Where `initWebGL` (source lines 69-89) routes rendering. -/
inductive InitRoute
  | fallbackCanvas
  | webglReady (sh : ShaderState)
  deriving DecidableEq

/-- The control flow of `initWebGL`: the Canvas fallback is entered only when
no GL context can be acquired (line 78); otherwise `setupShaders` runs, and
its failure escapes as an exception — no path leads from a shader failure to
the fallback. -/
def initWebGLRoute (glAvailable : Bool) (gl : GLDriver) : Except JsError InitRoute :=
  if !glAvailable then .ok .fallbackCanvas
  else
    match setupShaders gl with
    | .error e => .error e
    | .ok sh => .ok (.webglReady sh)

/-- A driver on which the node vertex shader fails to compile. -/
def brokenDriver : GLDriver :=
  { compileOk := fun src => src != ShaderSrc.nodeVertex
    linkOk := fun _ _ => true }

/-- C4 (refutation at a concrete input).  With a driver on which the node
vertex shader fails to compile, `createShaderProgram` does yield a null
handle — but `setupShaders` never checks it: it raises a `TypeError` on the
property assignment, and `initWebGL` with an available context therefore
ends in an exception instead of routing to the Canvas fallback. -/
theorem shader_failure_throws_not_fallback :
    createShaderProgram brokenDriver .nodeVertex .nodeFragment = none ∧
    setupShaders brokenDriver = .error .typeError ∧
    initWebGLRoute true brokenDriver = .error .typeError ∧
    initWebGLRoute true brokenDriver ≠ .ok .fallbackCanvas := by
  exact ⟨rfl, rfl, rfl, fun hcontra => nomatch hcontra⟩

/-- Source `fallbackToCanvas` ( lines 743-763): drop the GL context, switch
the animate method to the Canvas loop, cap `nodeCount` at 50 and
`connectionDistance` at 100, and reseed the nodes under the capped
options. -/
noncomputable def fallbackToCanvas (s : Inst) (rnd : ℕ → ℝ) : Inst :=
  let s := { s with glPresent := false }
  let s := { s with renderMode := RenderMode.canvas2d }
  let s :=
    { s with
        options :=
          { s.options with
              nodeCount := min s.options.nodeCount 50
              connectionDistance := min s.options.connectionDistance 100 } }
  createNodes s rnd

/-- If the configured count is at most 50 and the viewport area is
nonnegative, the adjusted count is at most 50 on every tier. -/
theorem adjustNodeCount_le_fifty (o : Options) (lvl : PerfLevel) (w h : ℚ)
    (harea : (0 : ℚ) ≤ w * h) (hbound : o.nodeCount ≤ 50) :
    adjustNodeCountForPerformance o lvl w h ≤ 50 := by
  unfold adjustNodeCountForPerformance
  have hr0 : (0 : ℚ) ≤ min 1 (w * h / (1920 * 1080)) :=
    le_min (by norm_num) (div_nonneg harea (by norm_num))
  have hr1 : min 1 (w * h / (1920 * 1080)) ≤ 1 := min_le_left _ _
  have hprod : o.nodeCount * min 1 (w * h / (1920 * 1080)) ≤ 50 := by
    rcases le_or_lt 0 o.nodeCount with hnc | hnc
    · exact le_trans (mul_le_of_le_one_right hnc hr1) hbound
    · exact le_trans (mul_nonpos_of_nonpos_of_nonneg hnc.le hr0) (by norm_num)
  have hfloor : (⌊o.nodeCount * min 1 (w * h / (1920 * 1080))⌋ : ℤ) ≤ 50 := by
    rw [Int.floor_le_iff]
    push_cast
    linarith
  cases lvl
  · exact min_le_right _ _
  · exact le_trans (min_le_left _ _) hfloor
  · exact hfloor

/-- C10. When GL context acquisition fails and `fallbackToCanvas` runs, the
instance silently tightens its own configuration: the effective node count
becomes `min(configured, 50)` and the effective connection distance
`min(configured, 100)`, the animate method is swapped to the Canvas loop, and
the node set is reseeded under these caps — at most 50 nodes; the per-frame
simulate step and `resize` never change the node count afterwards. -/
theorem fallback_caps_configuration (s : Inst) (rnd : ℕ → ℝ)
    (hw : 0 ≤ s.width) (hh : 0 ≤ s.height) :
    ((fallbackToCanvas s rnd).options.nodeCount = min s.options.nodeCount 50) ∧
    ((fallbackToCanvas s rnd).options.connectionDistance =
      min s.options.connectionDistance 100) ∧
    ((fallbackToCanvas s rnd).renderMode = RenderMode.canvas2d) ∧
    ((fallbackToCanvas s rnd).glPresent = false) ∧
    ((fallbackToCanvas s rnd).nodes.length ≤ 50) ∧
    (∀ now, ((frameStep (fallbackToCanvas s rnd) now).1).nodes.length =
      (fallbackToCanvas s rnd).nodes.length) ∧
    (∀ w' h' r2, ((resize (fallbackToCanvas s rnd) w' h' r2).1).nodes.length =
      (fallbackToCanvas s rnd).nodes.length) := by
  refine ⟨rfl, rfl, rfl, rfl, ?_, ?_, ?_⟩
  · show ((createNodes _ rnd).nodes).length ≤ 50
    unfold createNodes
    conv_lhs => zeta
    rw [List.length_map, List.length_range, Int.toNat_le]
    have := adjustNodeCount_le_fifty
      { s.options with
          nodeCount := min s.options.nodeCount 50
          connectionDistance := min s.options.connectionDistance 100 }
      s.performanceLevel s.width s.height
      (mul_nonneg hw hh) (min_le_right _ _)
    exact_mod_cast this
  · intro now
    unfold frameStep updateNodesStep
    conv_lhs => zeta
    split
    · rfl
    · rw [List.length_map]
  · intro w' h' r2
    unfold resize
    conv_lhs => zeta
    split
    · rw [List.length_mapIdx]
    · rfl

/-- Witness for C10 at a concrete state. -/
theorem fallback_caps_configuration_witness :
    (0 : ℚ) ≤ sampleBase.width ∧ (0 : ℚ) ≤ sampleBase.height ∧
    ((fallbackToCanvas sampleBase (fun _ => 0)).options.nodeCount =
      min sampleBase.options.nodeCount 50) ∧
    ((fallbackToCanvas sampleBase (fun _ => 0)).nodes.length ≤ 50) := by
  have h := fallback_caps_configuration sampleBase (fun _ => 0) (by decide) (by decide)
  exact ⟨by decide, by decide, h.1, h.2.2.2.2.1⟩

/-- C7. The effective node count: it equals the configured count scaled by
the viewport-area ratio against a 1920×1080 reference and held under the
quality-tier cap; it is monotone in the viewport area (so it only decreases
as the viewport shrinks); and on a low-core-count, mobile-user-agent device
under default settings the whole startup flow yields strictly fewer nodes
than the configured default of 150. -/
theorem effective_node_count_props :
    (∀ (o : Options) (lvl : PerfLevel) (w1 h1 w2 h2 : ℚ),
      0 ≤ o.nodeCount → w1 * h1 ≤ w2 * h2 →
      adjustNodeCountForPerformance o lvl w1 h1 ≤
        adjustNodeCountForPerformance o lvl w2 h2) ∧
    (∀ (o : Options) (lvl : PerfLevel) (w h : ℚ),
      adjustNodeCountForPerformance o lvl w h =
        specEffectiveNodeCount o.nodeCount lvl w h) ∧
    (∀ (d : Device) (t w h : ℚ), d.uaMobile = true →
      startupEffectiveNodeCount defaultOptions d t w h < 150) := by
  refine ⟨?_, ?_, ?_⟩
  · intro o lvl w1 h1 w2 h2 hnc harea
    unfold adjustNodeCountForPerformance
    have hmin : min 1 (w1 * h1 / (1920 * 1080)) ≤ min 1 (w2 * h2 / (1920 * 1080)) :=
      min_le_min le_rfl ((div_le_div_iff_of_pos_right (by norm_num)).mpr harea)
    have hscaled :
        (⌊o.nodeCount * min 1 (w1 * h1 / (1920 * 1080))⌋ : ℤ) ≤
          ⌊o.nodeCount * min 1 (w2 * h2 / (1920 * 1080))⌋ :=
      Int.floor_le_floor (mul_le_mul_of_nonneg_left hmin hnc)
    cases lvl
    · exact min_le_min hscaled le_rfl
    · exact min_le_min hscaled le_rfl
    · exact hscaled
  · intro o lvl w h
    rfl
  · intro d t w h hmob
    have hlow : isLowEndDevice d = true := by
      simp [isLowEndDevice, hmob]
    unfold startupEffectiveNodeCount checkPerformanceHeur
    rw [if_pos hlow]
    unfold benchmarkAdjust
    split_ifs with ht
    · unfold adjustNodeCountForPerformance
      exact lt_of_le_of_lt (min_le_right _ _) (by norm_num)
    · unfold adjustNodeCountForPerformance
      exact lt_of_le_of_lt (min_le_right _ _) (by norm_num)

/-- Witness for C7 at concrete inputs. -/
theorem effective_node_count_props_witness :
    ((0 : ℚ) ≤ defaultOptions.nodeCount ∧ (800 : ℚ) * 600 ≤ 1920 * 1080 ∧
      adjustNodeCountForPerformance defaultOptions .high 800 600 ≤
        adjustNodeCountForPerformance defaultOptions .high 1920 1080) ∧
    (Device.uaMobile ⟨some 4, true, false, true, true, true⟩ = true ∧
      startupEffectiveNodeCount defaultOptions ⟨some 4, true, false, true, true, true⟩
        0 800 600 < 150) :=
  ⟨⟨by decide, by norm_num,
      effective_node_count_props.1 defaultOptions .high 800 600 1920 1080
        (by decide) (by norm_num)⟩,
    ⟨rfl, effective_node_count_props.2.2 ⟨some 4, true, false, true, true, true⟩
      0 800 600 rfl⟩⟩

/-- Source `updateOptions` ( lines 876-886): partial merge; changing the node
count triggers a reseeding. -/
noncomputable def updateOptionsRun (s : Inst) (p : OptionsPatch) (rnd : ℕ → ℝ) : Inst :=
  let s := { s with options := mergeOptions s.options p }
  if p.nodeCount.isSome then createNodes s rnd else s

/-- The entry points through which anything can happen to a constructed
instance after startup: a frame callback, a dispatched browser event, an
`updateOptions` call, a `destroy` call. -/
inductive RtStep
  | frame (now : ℚ)
  | windowResize (w h : ℚ) (rnd : ℕ → ℝ)
  | mouseMove (x y : ℝ)
  | mouseLeave
  | mouseEnter
  | touchMove (x y : ℝ)
  | touchStart (x y : ℝ)
  | touchEnd
  | docVisibility (v : Bool)
  | optionsUpdate (p : OptionsPatch) (rnd : ℕ → ℝ)
  | destroyCall (nb : ℕ)

/-- Apply one runtime step to the instance state. -/
noncomputable def applyRtStep (e : RtStep) (s : Inst) : Inst :=
  match e with
  | .frame now => (frameStep s now).1
  | .windowResize w h rnd => dispatchEvent s .window .resizeEvent (.resized w h rnd)
  | .mouseMove x y => dispatchEvent s .container .mousemove (.pointer x y)
  | .mouseLeave => dispatchEvent s .container .mouseleave .plain
  | .mouseEnter => dispatchEvent s .container .mouseenter .plain
  | .touchMove x y => dispatchEvent s .container .touchmove (.pointer x y)
  | .touchStart x y => dispatchEvent s .container .touchstart (.pointer x y)
  | .touchEnd => dispatchEvent s .container .touchend .plain
  | .docVisibility v => dispatchEvent s .document .visibilitychange (.visibility v)
  | .optionsUpdate p rnd => updateOptionsRun s p rnd
  | .destroyCall nb => destroy s nb

theorem resize_performanceLevel (s : Inst) (w h : ℚ) (rnd : ℕ → ℝ) :
    ((resize s w h rnd).1).performanceLevel = s.performanceLevel := by
  unfold resize
  conv_lhs => zeta
  split <;> rfl

theorem frameStep_performanceLevel (s : Inst) (now : ℚ) :
    ((frameStep s now).1).performanceLevel = s.performanceLevel := by
  unfold frameStep updateNodesStep
  conv_lhs => zeta
  split <;> rfl

theorem createNodes_performanceLevel (s : Inst) (rnd : ℕ → ℝ) :
    (createNodes s rnd).performanceLevel = s.performanceLevel := rfl

theorem updateOptionsRun_performanceLevel (s : Inst) (p : OptionsPatch) (rnd : ℕ → ℝ) :
    (updateOptionsRun s p rnd).performanceLevel = s.performanceLevel := by
  unfold updateOptionsRun
  conv_lhs => zeta
  split <;> rfl

theorem runHandler_performanceLevel (h : Handler) (p : EventPayload) (s : Inst) :
    (runHandler h p s).performanceLevel = s.performanceLevel := by
  cases h <;> cases p <;>
    first
      | rfl
      | exact resize_performanceLevel _ _ _ _

theorem foldl_runHandler_performanceLevel (p : EventPayload) (ls : List Listener)
    (s : Inst) :
    (ls.foldl (fun st l => runHandler l.handler p st) s).performanceLevel =
      s.performanceLevel := by
  induction ls generalizing s with
  | nil => rfl
  | cons a tl ih => rw [List.foldl_cons, ih, runHandler_performanceLevel]

theorem dispatchEvent_performanceLevel (s : Inst) (tgt : EvTarget) (ev : EvName)
    (p : EventPayload) :
    (dispatchEvent s tgt ev p).performanceLevel = s.performanceLevel :=
  foldl_runHandler_performanceLevel p _ s

theorem destroyRemoveListeners_performanceLevel (s : Inst) (nb : ℕ) :
    (destroyRemoveListeners s nb).performanceLevel = s.performanceLevel := by
  unfold destroyRemoveListeners removeListener
  conv_lhs => zeta
  split <;> rfl

theorem destroy_performanceLevel (s : Inst) (nb : ℕ) :
    (destroy s nb).performanceLevel = s.performanceLevel := by
  unfold destroy destroyReleaseGL destroyDetachCanvas destroyDisconnectObserver
  split <;> split <;> split <;>
    rw [destroyRemoveListeners_performanceLevel] <;> rfl

/-- No runtime step changes the performance level. -/
theorem applyRtStep_performanceLevel (e : RtStep) (s : Inst) :
    (applyRtStep e s).performanceLevel = s.performanceLevel := by
  cases e with
  | frame now => exact frameStep_performanceLevel s now
  | windowResize w h rnd => exact dispatchEvent_performanceLevel s _ _ _
  | mouseMove x y => exact dispatchEvent_performanceLevel s _ _ _
  | mouseLeave => exact dispatchEvent_performanceLevel s _ _ _
  | mouseEnter => exact dispatchEvent_performanceLevel s _ _ _
  | touchMove x y => exact dispatchEvent_performanceLevel s _ _ _
  | touchStart x y => exact dispatchEvent_performanceLevel s _ _ _
  | touchEnd => exact dispatchEvent_performanceLevel s _ _ _
  | docVisibility v => exact dispatchEvent_performanceLevel s _ _ _
  | optionsUpdate p rnd => exact updateOptionsRun_performanceLevel s p rnd
  | destroyCall nb => exact destroy_performanceLevel s nb

/-- Overall outcome of `new WebGLNeuralNetwork(container, options)`. -/
inductive ConstructOutcome
  | noContainer
  | ok (s : Inst)
  | thrown (e : JsError)

/-- The constructor (source lines 8-64).  When the container argument
resolves to no element the constructor warns and returns at line 16, before
any state is initialised.  Otherwise: options merge, state fields, canvas
creation and context acquisition (`initWebGL`), the adaptive performance
probe, node seeding, listener wiring, an initial `resize`, and the first
(synchronous) `animate` call.  In Canvas fallback mode the probe's benchmark
dereferences the null `this.gl` (as does `resize` when the probe is
disabled), so the constructor throws. -/
noncomputable def construct (containerFound : Bool) (userOpts : OptionsPatch)
    (d : Device) (glAvailable : Bool) (gl : GLDriver) (benchmarkTime : ℚ)
    (rnd : ℕ → ℝ) (nb : ℕ) (observerApiAvailable : Bool)
    (containerW containerH : ℚ) (now : ℚ) : ConstructOutcome :=
  if !containerFound then .noContainer
  else
    let o := mergeOptions defaultOptions userOpts
    let s : Inst :=
      { options := o, width := 0, height := 0, time := 0, nodes := [],
        mouse := ⟨0, 0, false⟩, isVisible := true, shouldRender := true,
        performanceLevel := .high, glPresent := false, renderMode := .webgl,
        canvasPresent := false, canvasInDom := false, observerPresent := false,
        observerConnected := false, listeners := [],
        bufNodePosLive := false, bufNodeSizeLive := false,
        bufConnPosLive := false, progNodeLive := false, progConnLive := false,
        rafQueued := false }
    let s := { s with canvasPresent := true, canvasInDom := true }
    if !glAvailable then
      let s := fallbackToCanvas s rnd
      if s.options.adaptivePerformance then
        .thrown .typeError
      else
        .thrown .typeError
    else
      let s := { s with glPresent := true }
      match setupShaders gl with
      | .error e => .thrown e
      | .ok _ =>
        let s :=
          { s with
              bufNodePosLive := true, bufNodeSizeLive := true,
              bufConnPosLive := true, progNodeLive := true, progConnLive := true }
        let s :=
          if s.options.adaptivePerformance then
            let p1 := checkPerformanceHeur d s.options s.performanceLevel
            let p2 := benchmarkAdjust benchmarkTime p1.1 p1.2
            { s with options := p2.1, performanceLevel := p2.2 }
          else s
        let s := createNodes s rnd
        let s := setupEventListeners s nb observerApiAvailable
        let s := (resize s containerW containerH rnd).1
        let s := (frameStep s now).1
        .ok s

/-- Tier from the device heuristics alone (C8's spec reading of
`checkPerformance`). -/
def specHeuristicTier (d : Device) : PerfLevel :=
  if isLowEndDevice d then .low
  else if isMidRangeDevice d then .medium
  else .high

/-- One-time benchmark downgrade (C8's spec reading of
`runWebGLBenchmark`). -/
def specBenchDowngrade (t : ℚ) (lvl : PerfLevel) : PerfLevel :=
  if t > 10 then
    match lvl with
    | .high => .medium
    | .medium => .low
    | .low => .low
  else lvl

/-- The quality tier the startup flow chooses, per the claim: heuristics plus
a one-time benchmark that can downgrade one tier further; `high` when
adaptive performance is off. -/
def specStartupTier (adaptive : Bool) (d : Device) (t : ℚ) : PerfLevel :=
  if adaptive then specBenchDowngrade t (specHeuristicTier d) else .high

theorem checkPerformanceHeur_level (d : Device) (o : Options) :
    (checkPerformanceHeur d o .high).2 = specHeuristicTier d := by
  unfold checkPerformanceHeur specHeuristicTier
  split_ifs <;> rfl

theorem benchmarkAdjust_level (t : ℚ) (o : Options) (lvl : PerfLevel) :
    (benchmarkAdjust t o lvl).2 = specBenchDowngrade t lvl := by
  unfold benchmarkAdjust specBenchDowngrade
  split_ifs <;> cases lvl <;> rfl

theorem setupEventListeners_performanceLevel (s : Inst) (nb : ℕ) (oa : Bool) :
    (setupEventListeners s nb oa).performanceLevel = s.performanceLevel := by
  unfold setupEventListeners addListener
  conv_lhs => zeta
  split <;> split <;> rfl

/-- The performance level of a successfully constructed instance. -/
def constructedLevel : ConstructOutcome → Option PerfLevel
  | .ok s => some s.performanceLevel
  | _ => none

/-- Whether both shader programs compile and link on this driver. -/
def setupShadersOk (gl : GLDriver) : Bool :=
  match setupShaders gl with
  | .ok _ => true
  | .error _ => false

/-- C8. The quality tier is chosen once at startup, before the first frame:
a successful construction ends with exactly the tier computed by the device
heuristics plus the one-time benchmark downgrade (or `high` when adaptive
performance is off) — and no subsequent runtime step (frame callback,
browser event, `updateOptions`, `destroy`) ever changes it. -/
theorem tier_chosen_once_at_startup :
    (∀ (e : RtStep) (s : Inst),
      (applyRtStep e s).performanceLevel = s.performanceLevel) ∧
    (∀ (steps : List RtStep) (s : Inst),
      (steps.foldl (fun st e => applyRtStep e st) s).performanceLevel =
        s.performanceLevel) ∧
    (∀ (userOpts : OptionsPatch) (d : Device) (gl : GLDriver) (t : ℚ)
        (rnd : ℕ → ℝ) (nb : ℕ) (oa : Bool) (w h now : ℚ),
      setupShadersOk gl = true →
      constructedLevel (construct true userOpts d true gl t rnd nb oa w h now) =
        some (specStartupTier
          (mergeOptions defaultOptions userOpts).adaptivePerformance d t)) := by
  refine ⟨applyRtStep_performanceLevel, ?_, ?_⟩
  · intro steps
    induction steps with
    | nil => intro s; rfl
    | cons e tl ih =>
        intro s
        rw [List.foldl_cons, ih, applyRtStep_performanceLevel]
  · intro userOpts d gl t rnd nb oa w h now hok
    obtain ⟨sh, hsh⟩ : ∃ sh, setupShaders gl = .ok sh := by
      unfold setupShadersOk at hok
      cases hsetup : setupShaders gl with
      | ok sh => exact ⟨sh, rfl⟩
      | error e => rw [hsetup] at hok; exact absurd hok (by simp)
    unfold construct
    rw [hsh]
    simp only [Bool.not_true, Bool.false_eq_true, if_false]
    rw [constructedLevel, frameStep_performanceLevel, resize_performanceLevel,
      setupEventListeners_performanceLevel, createNodes_performanceLevel]
    unfold specStartupTier
    by_cases hA : (mergeOptions defaultOptions userOpts).adaptivePerformance
    · rw [if_pos hA, if_pos hA, benchmarkAdjust_level, checkPerformanceHeur_level]
    · rw [if_neg hA, if_neg hA]

/-- A driver on which both programs compile and link. -/
def goodDriver : GLDriver :=
  { compileOk := fun _ => true, linkOk := fun _ _ => true }

/-- Witness for C8's startup part at concrete inputs. -/
theorem tier_chosen_once_at_startup_witness :
    setupShadersOk goodDriver = true ∧
    constructedLevel
        (construct true {} ⟨some 8, false, false, true, false, false⟩ true goodDriver
          0 (fun _ => 0) 0 true 800 600 0) =
      some (specStartupTier (mergeOptions defaultOptions {}).adaptivePerformance
        ⟨some 8, false, false, true, false, false⟩ 0) :=
  ⟨rfl, tier_chosen_once_at_startup.2.2 {} ⟨some 8, false, false, true, false, false⟩
    goodDriver 0 (fun _ => 0) 0 true 800 600 0 rfl⟩

/-- C6. When the container argument resolves to no element, the constructor
no-ops safely: it warns and returns — for every option object and
environment, the outcome is the early return, never a thrown exception. -/
theorem missing_container_is_safe_noop (userOpts : OptionsPatch) (d : Device)
    (glAvailable : Bool) (gl : GLDriver) (t : ℚ) (rnd : ℕ → ℝ) (nb : ℕ)
    (oa : Bool) (w h now : ℚ) :
    construct false userOpts d glAvailable gl t rnd nb oa w h now =
      ConstructOutcome.noContainer ∧
    ∀ e : JsError,
      construct false userOpts d glAvailable gl t rnd nb oa w h now ≠
        ConstructOutcome.thrown e :=
  ⟨rfl, fun _ hcontra => nomatch hcontra⟩

end Websiting
